import Mathlib

/-!
Shallow embedding of the trading-simulation engine in
`backend/app/trading/simulator.py` (class `TradingSimulator`), over exact
rationals.  Prices, balances and pip amounts are `ℚ`; timestamps are `ℕ`
(the simulator only threads them through, never computes with them).  The
external model manager is abstracted as a function from the bar index to an
`Except`-result, mirroring that `model_manager.predict` is called with the
same `(model_type, currency_pair, timeframe)` arguments on every call and
may raise.
-/

namespace Forex

/-- `OrderType` enum from the source. -/
inductive OrderType where
  | BUY
  | SELL
deriving DecidableEq, Repr

/-- The `Order` dataclass.  `take_profit`/`stop_loss` are `Optional` in the
source but are always set by `_open_order` before any other code reads them,
so they are embedded as plain `ℚ`; `exit_price`/`exit_time` keep their
`Optional` (here `Option`) type.  Defaults are the dataclass defaults. -/
structure Order where
  order_type : OrderType
  entry_price : ℚ
  entry_time : ℕ
  lot_size : ℚ := 0.01
  take_profit : ℚ
  stop_loss : ℚ
  exit_price : Option ℚ := none
  exit_time : Option ℕ := none
  profit_loss : ℚ := 0
  profit_pips : ℚ := 0
  is_closed : Bool := false
deriving DecidableEq, Repr

/-- The `SimulationState` dataclass. -/
structure SimulationState where
  balance : ℚ
  equity : ℚ
  margin_used : ℚ := 0
  open_orders : List Order := []
  closed_orders : List Order := []
  max_balance : ℚ := 0
  max_drawdown : ℚ := 0
deriving DecidableEq, Repr

/-- The constructor parameters of `TradingSimulator` (its only mutable
attribute, `model_manager`, is abstracted separately as the `predict`
argument of the run functions).  Defaults are the constructor defaults. -/
structure TradingSimulator where
  initial_balance : ℚ := 10000
  leverage : ℚ := 100
  risk_factor : ℚ := 1
  lot_size : ℚ := 0.01
  spread_pips : ℚ := 2
deriving DecidableEq, Repr

/-- One OHLC price bar as consumed by the simulation loop.  The generated
bars also carry `open` and `volume` fields, which no simulation code reads;
they are omitted. -/
structure Bar where
  timestamp : ℕ
  high : ℚ
  low : ℚ
  close : ℚ
deriving DecidableEq, Repr

/-- The fields of the `model_manager.predict` result that
`_generate_signal` reads (`predicted_price` and `model_version` are
ignored by the simulator). -/
structure Prediction where
  price_change : ℚ
  confidence : ℚ
deriving DecidableEq, Repr

/-- The signal dict returned by `_generate_signal`. -/
structure Signal where
  type : OrderType
  confidence : ℚ
  predicted_change : ℚ
deriving DecidableEq, Repr

/-- `_pips_to_price`: convert pips to a price difference; pip unit is
`0.01` for `reference_price > 10` (JPY heuristic), else `0.0001`. -/
def pips_to_price (pips reference_price : ℚ) : ℚ :=
  if reference_price > 10 then pips * 0.01 else pips * 0.0001

/-- `_price_to_pips`: convert a price difference to pips, with the same
scale selection as `pips_to_price`. -/
def price_to_pips (price_diff reference_price : ℚ) : ℚ :=
  if reference_price > 10 then price_diff / 0.01 else price_diff / 0.0001

/-- `_calculate_margin`: `(lot_size * 100000) / leverage`. -/
def calculate_margin (sim : TradingSimulator) (o : Order) : ℚ :=
  o.lot_size * 100000 / sim.leverage

/-- `_close_order`: set exit fields, the closed flag, and compute
`profit_pips`/`profit_loss` ($10 per pip per lot). -/
def close_order (o : Order) (exit_price : ℚ) (exit_time : ℕ) : Order :=
  let pip_diff :=
    match o.order_type with
    | .BUY => price_to_pips (exit_price - o.entry_price) o.entry_price
    | .SELL => price_to_pips (o.entry_price - exit_price) o.entry_price
  { o with
    exit_price := some exit_price
    exit_time := some exit_time
    is_closed := true
    profit_pips := pip_diff
    profit_loss := pip_diff * o.lot_size * 10 }

/-- The per-order exit decision of `_check_orders`: take-profit is tested
first, then stop-loss, for each direction; the result is the tentative
exit price (the source's `exit_price` local, `None` when no level hit). -/
def exitDecision (o : Order) (bar : Bar) : Option ℚ :=
  match o.order_type with
  | .BUY =>
    if bar.high ≥ o.take_profit then some o.take_profit
    else if bar.low ≤ o.stop_loss then some o.stop_loss
    else none
  | .SELL =>
    if bar.low ≤ o.take_profit then some o.take_profit
    else if bar.high ≥ o.stop_loss then some o.stop_loss
    else none

/-- The source closes an order only under `if should_close and exit_price:`;
since `exit_price` there is a float-or-`None`, an exit price of exactly `0`
is falsy and the close is skipped.  This predicate mirrors that guard. -/
def shouldClose (o : Order) (bar : Bar) : Bool :=
  match exitDecision o bar with
  | some e => decide (e ≠ 0)
  | none => false

/-- Closing an order against a bar: `_close_order` at the decided exit
price and the bar's timestamp (identity when no close is decided). -/
def closeAtBar (o : Order) (bar : Bar) : Order :=
  match exitDecision o bar with
  | some e => close_order o e bar.timestamp
  | none => o

/-- The per-closed-order bookkeeping of `_check_orders`' second loop:
append the order to `closed_orders`, realize P&L into `balance`, release
margin, then update `max_balance` and `max_drawdown`.  (The accompanying
`open_orders.remove(order)` is realized once, as the survivor filter in
`check_orders`.) -/
def closeBookkeeping (sim : TradingSimulator) (s : SimulationState) (o : Order) :
    SimulationState :=
  let balance := s.balance + o.profit_loss
  let max_balance := if balance > s.max_balance then balance else s.max_balance
  let drawdown := (max_balance - balance) / max_balance
  let max_drawdown := if drawdown > s.max_drawdown then drawdown else s.max_drawdown
  { s with
    closed_orders := s.closed_orders ++ [o]
    balance := balance
    margin_used := s.margin_used - calculate_margin sim o
    max_balance := max_balance
    max_drawdown := max_drawdown }

/-- `_check_orders`: close every open order whose exit decision fires (and
is truthy), in list order, then run the bookkeeping for each closed order
in the same order.  The source's `open_orders.remove(order)` deletions are
realized up front as a filter on the surviving orders, which is equivalent
because each closed order is removed exactly once and the survivors keep
their relative order. -/
def check_orders (sim : TradingSimulator) (s : SimulationState) (bar : Bar) :
    SimulationState :=
  (((s.open_orders.filter (fun o => shouldClose o bar)).map
      (fun o => closeAtBar o bar)).foldl (closeBookkeeping sim)
    { s with open_orders := s.open_orders.filter (fun o => ! shouldClose o bar) })

/-- `_generate_signal`: the predictor call (and its field accesses) may
fail, which is swallowed into "no signal"; otherwise apply the confidence
threshold and the `±0.001` dead zone. -/
def generate_signal (result : Except Unit Prediction) : Option Signal :=
  match result with
  | .error _ => none
  | .ok r =>
    if r.confidence < 0.6 then none
    else if r.price_change > 0.001 then
      some { type := .BUY, confidence := r.confidence,
             predicted_change := r.price_change }
    else if r.price_change < -0.001 then
      some { type := .SELL, confidence := r.confidence,
             predicted_change := |r.price_change| }
    else none

/-- `_open_order`: TP/SL from the bar's single-bar range, spread applied
to the BUY entry only (converted at the pre-offset entry price), margin
added to `margin_used`. -/
def open_order (sim : TradingSimulator) (s : SimulationState) (signal : Signal)
    (bar : Bar) : SimulationState :=
  let entry_price := bar.close
  let atr := bar.high - bar.low
  let tp_distance := atr * 2 * sim.risk_factor
  let sl_distance := atr * 1.5 * sim.risk_factor
  let o : Order :=
    match signal.type with
    | .BUY =>
      { order_type := signal.type
        entry_price := entry_price + pips_to_price sim.spread_pips entry_price
        entry_time := bar.timestamp
        lot_size := sim.lot_size
        take_profit := entry_price + tp_distance
        stop_loss := entry_price - sl_distance }
    | .SELL =>
      { order_type := signal.type
        entry_price := entry_price
        entry_time := bar.timestamp
        lot_size := sim.lot_size
        take_profit := entry_price - tp_distance
        stop_loss := entry_price + sl_distance }
  { s with
    open_orders := s.open_orders ++ [o]
    margin_used := s.margin_used + calculate_margin sim o }

/-- `_update_equity`: `equity = balance + Σ` unrealized pip P&L of open
orders marked at the current close. -/
def update_equity (s : SimulationState) (current_price : ℚ) : SimulationState :=
  let unrealized_pnl := s.open_orders.foldl
    (fun acc o =>
      let pips :=
        match o.order_type with
        | .BUY => price_to_pips (current_price - o.entry_price) o.entry_price
        | .SELL => price_to_pips (o.entry_price - current_price) o.entry_price
      acc + pips * o.lot_size * 10) 0
  { s with equity := s.balance + unrealized_pnl }

/-- The signal block of the `run_backtest` bar loop: every 5th bar past
the warm-up (`i % 5 == 0 and i > 28`), generate a signal and open at most
one order when fewer than 3 are open.  `s1` is the state after that bar's
exit checks. -/
def signalPhase (sim : TradingSimulator) (predict : ℕ → Except Unit Prediction)
    (s1 : SimulationState) (i : ℕ) (bar : Bar) : SimulationState :=
  if i % 5 = 0 ∧ i > 28 then
    match generate_signal (predict i) with
    | some signal =>
      if s1.open_orders.length < 3 then open_order sim s1 signal bar else s1
    | none => s1
  else s1

/-- One iteration of the `run_backtest` bar loop at index `i`: check exits,
then the signal block, then update equity. -/
def stepBar (sim : TradingSimulator) (predict : ℕ → Except Unit Prediction)
    (s : SimulationState) (i : ℕ) (bar : Bar) : SimulationState :=
  update_equity (signalPhase sim predict (check_orders sim s bar) i bar) bar.close

/-- The bar loop of `run_backtest`, from index `i` over the remaining
bars. -/
def runFrom (sim : TradingSimulator) (predict : ℕ → Except Unit Prediction) :
    ℕ → List Bar → SimulationState → SimulationState
  | _, [], s => s
  | i, bar :: rest, s => runFrom sim predict (i + 1) rest (stepBar sim predict s i bar)

/-- The state `run_backtest` builds before the loop. -/
def initState (sim : TradingSimulator) : SimulationState :=
  { balance := sim.initial_balance
    equity := sim.initial_balance
    max_balance := sim.initial_balance }

/-- The whole bar loop of `run_backtest` over a price series. -/
def runLoop (sim : TradingSimulator) (predict : ℕ → Except Unit Prediction)
    (prices : List Bar) : SimulationState :=
  runFrom sim predict 0 prices (initState sim)

/-- The state after the first `n` bars of the loop (the loop is a left fold,
so this is the state at a bar boundary). -/
def run_take (sim : TradingSimulator) (predict : ℕ → Except Unit Prediction)
    (prices : List Bar) (n : ℕ) : SimulationState :=
  runFrom sim predict 0 (prices.take n) (initState sim)

/-- The end-of-run flush of `run_backtest`: every still-open order is run
through `_close_order` at the last bar's close and timestamp and appended
to `closed_orders`, then `open_orders` is cleared.  No other state field is
touched.  (When the series is empty the source never evaluates
`prices[-1]`, because no order can be open; clearing is then a no-op.) -/
def finalize (s : SimulationState) (prices : List Bar) : SimulationState :=
  match prices.getLast? with
  | some lastBar =>
    { s with
      closed_orders := s.closed_orders ++
        s.open_orders.map (fun o => close_order o lastBar.close lastBar.timestamp)
      open_orders := [] }
  | none => { s with open_orders := [] }

/-- `run_backtest` up to (but not including) `_compile_results`: the loop
followed by the end-of-run flush. -/
def run_backtest (sim : TradingSimulator) (predict : ℕ → Except Unit Prediction)
    (prices : List Bar) : SimulationState :=
  finalize (runLoop sim predict prices) prices

/-- `np.mean` over the per-trade returns (exact rational mean;
`[].sum / 0 = 0` by the `ℚ` convention, matching that the source never
takes the mean of an empty list). -/
def listMean (xs : List ℚ) : ℚ := xs.sum / xs.length

/-- `np.std` squared: the population variance `Σ (x − mean)² / n`. -/
def listVariance (xs : List ℚ) : ℚ :=
  ((xs.map (fun x => (x - listMean xs) ^ 2)).sum) / xs.length

/-- `np.std`: the population standard deviation, the square root of
`listVariance`. -/
noncomputable def listStdev (xs : List ℚ) : ℝ :=
  Real.sqrt ((listVariance xs : ℚ) : ℝ)

open scoped Classical in
/-- The Sharpe-proxy branch of `_compile_results`: for more than one trade
with positive standard deviation, `mean / std * sqrt 252`; otherwise 0. -/
noncomputable def sharpe (returns : List ℚ) : ℝ :=
  if 1 < returns.length then
    if 0 < listStdev returns then
      (((listMean returns : ℚ) : ℝ) / listStdev returns) * Real.sqrt 252
    else 0
  else 0

/-- The fields of the `_compile_results` report that depend on the final
state (the echoed request parameters — pair, dates, initial balance — are
omitted; the per-trade ledger is kept as the list of closed orders, whose
fields are exactly the ledger entries). -/
structure Report where
  final_balance : ℚ
  total_trades : ℕ
  winning_trades : ℕ
  losing_trades : ℕ
  total_profit_loss : ℚ
  win_rate : ℚ
  max_drawdown : ℚ
  sharpe : ℝ
  trades : List Order

/-- `_compile_results`: counts, total P&L, win rate (0 on no trades),
max drawdown, Sharpe proxy, and the per-trade ledger. -/
noncomputable def compile_results (s : SimulationState) : Report :=
  let total_trades := s.closed_orders.length
  let winning_trades := (s.closed_orders.filter (fun o => o.profit_loss > 0)).length
  let losing_trades := (s.closed_orders.filter (fun o => o.profit_loss ≤ 0)).length
  let total_pnl := (s.closed_orders.map (fun o => o.profit_loss)).sum
  { final_balance := s.balance
    total_trades := total_trades
    winning_trades := winning_trades
    losing_trades := losing_trades
    total_profit_loss := total_pnl
    win_rate := if total_trades > 0 then (winning_trades : ℚ) / (total_trades : ℚ) else 0
    max_drawdown := s.max_drawdown
    sharpe := sharpe (s.closed_orders.map (fun o => o.profit_loss))
    trades := s.closed_orders }

/-- The order-book bookkeeping invariant: every open order is unclosed
with null exit fields, every closed order is closed with both exit fields
set. -/
def orderBookInv (s : SimulationState) : Prop :=
  (∀ o ∈ s.open_orders,
    o.is_closed = false ∧ o.exit_price = none ∧ o.exit_time = none) ∧
  (∀ o ∈ s.closed_orders,
    o.is_closed = true ∧ o.exit_price ≠ none ∧ o.exit_time ≠ none)

/-! Concrete inputs used by the counterexamples and witnesses below. -/

/-- The simulator with its default constructor parameters. -/
def sim0 : TradingSimulator := {}

/-- A predictor that always succeeds with a confident bullish forecast. -/
def predict0 : ℕ → Except Unit Prediction :=
  fun _ => .ok { price_change := 0.01, confidence := 0.9 }

/-- A flat bar at price 1 with a 0.02 range. -/
def flatBar (i : ℕ) : Bar := { timestamp := i, high := 1.01, low := 0.99, close := 1 }

/-- 31 flat bars: exactly one signal gate fires (at bar 30, the last bar),
so the order opened there is still open when the loop ends. -/
def bars31 : List Bar := (List.range 31).map flatBar

/-- 10 flat bars: below the 28-bar warm-up. -/
def bars10 : List Bar := (List.range 10).map flatBar

/-- A bar with a huge range (an opened order gets a stop-loss far below
zero). -/
def wideBar : Bar := { timestamp := 30, high := 300, low := 0, close := 1 }

/-- A crash bar that reaches the deep stop-loss produced by `wideBar`. -/
def crashBar : Bar := { timestamp := 31, high := 1, low := -450, close := 1 }

/-- 30 flat bars, then `wideBar` (bar 30, where the signal gate opens an
order) and `crashBar` (bar 31, which hits the stop): the one closed trade
loses far more than the initial balance. -/
def bars32 : List Bar := (List.range 30).map flatBar ++ [wideBar, crashBar]

/-- Scenario A order: BUY, entry 1.1000, TP 1.1050, SL 1.0950, lot 0.01. -/
def scenarioA_order : Order :=
  { order_type := .BUY, entry_price := 1.1, entry_time := 0, lot_size := 0.01,
    take_profit := 1.105, stop_loss := 1.095 }

/-- Scenario A bar: high 1.1060, low 1.0990. -/
def scenarioA_bar : Bar := { timestamp := 7, high := 1.106, low := 1.099, close := 1.1 }

/-- A bar whose range spans both of Scenario A's levels (TP and SL). -/
def spanBar : Bar := { timestamp := 2, high := 1.106, low := 1.09, close := 1.1 }

/-- Scenario C order: SELL at JPY scale, entry 149.50. -/
def scenarioC_order : Order :=
  { order_type := .SELL, entry_price := 149.5, entry_time := 0, lot_size := 0.01,
    take_profit := 149, stop_loss := 150 }

/-- A BUY order whose take-profit is exactly 0 (reachable from
`open_order` when `close = −2·(high−low)·risk_factor`). -/
def zeroTP_order : Order :=
  { order_type := .BUY, entry_price := 1, entry_time := 0, lot_size := 0.01,
    take_profit := 0, stop_loss := -1 }

/-- A bar reaching both the zero take-profit and the stop-loss of
`zeroTP_order`. -/
def zeroTP_bar : Bar := { timestamp := 1, high := 1, low := -2, close := 0.5 }

/-- A state holding only `zeroTP_order`. -/
def zeroTP_state : SimulationState :=
  { balance := 10000, equity := 10000, max_balance := 10000,
    open_orders := [zeroTP_order] }

/-- A state with no closed trades. -/
def noTradesState : SimulationState :=
  { balance := 10000, equity := 10000, max_balance := 10000 }

/-- A BUY signal value. -/
def buySignal : Signal :=
  { type := .BUY, confidence := 0.9, predicted_change := 0.01 }

/-- A SELL signal value. -/
def sellSignal : Signal :=
  { type := .SELL, confidence := 0.9, predicted_change := 0.01 }

/-- The order opened at bar 30 of `bars31` (entry 1 plus 2 pips of spread;
TP/SL from the 0.02 bar range). -/
def bars31_open_order : Order :=
  { order_type := .BUY, entry_price := 1.0002, entry_time := 30, lot_size := 0.01,
    take_profit := 1.04, stop_loss := 0.97 }

/-- The loop state at the end of `bars31`: the bar-30 order is open, 10 of
margin is in use, and the mark-to-market equity shows the 2-pip spread. -/
def state31 : SimulationState :=
  { balance := 10000, equity := 9999.8, margin_used := 10,
    open_orders := [bars31_open_order], closed_orders := [],
    max_balance := 10000, max_drawdown := 0 }

/-- The state `run_backtest` returns on `bars31`: the open order is
force-closed (its P&L is −0.2) but no accounting is done: the margin is
still in use and the balance is untouched. -/
def c1_final : SimulationState :=
  { balance := 10000, equity := 9999.8, margin_used := 10,
    open_orders := [], closed_orders := [close_order bars31_open_order 1 30],
    max_balance := 10000, max_drawdown := 0 }

/-- The order opened at `wideBar` in `bars32` (TP/SL from the 300-point
bar range). -/
def bars32_order : Order :=
  { order_type := .BUY, entry_price := 1.0002, entry_time := 30, lot_size := 0.01,
    take_profit := 601, stop_loss := -449 }

/-- The loop state at the end of `bars32`: the stop-loss fill at −449
realizes a −450000.2 loss, leaving the balance negative and a drawdown of
45.00002 — far above 1. -/
def c2_final : SimulationState :=
  { balance := -440000.2, equity := -440000.2, margin_used := 0,
    open_orders := [], closed_orders := [close_order bars32_order (-449) 31],
    max_balance := 10000, max_drawdown := 45.00002 }

/-- A state with exactly one closed trade. -/
def oneTradeState : SimulationState :=
  { balance := 10005, equity := 10005, max_balance := 10005,
    closed_orders := [close_order scenarioA_order 1.105 7] }

/-- A state with two closed trades of identical profit_loss (both 5). -/
def twinTradesState : SimulationState :=
  { balance := 10010, equity := 10010, max_balance := 10010,
    closed_orders := [close_order scenarioA_order 1.105 7,
                      close_order scenarioC_order 149 3] }

/-- A state with two closed trades of distinct profit_loss (5 and 0). -/
def mixedTradesState : SimulationState :=
  { balance := 10005, equity := 10005, max_balance := 10005,
    closed_orders := [close_order scenarioA_order 1.105 7,
                      close_order scenarioA_order 1.1 8] }

/-! Field-projection and preservation lemmas for the individual phases. -/

theorem close_order_is_closed (o : Order) (e : ℚ) (t : ℕ) :
    (close_order o e t).is_closed = true := rfl

theorem close_order_exit_price (o : Order) (e : ℚ) (t : ℕ) :
    (close_order o e t).exit_price = some e := rfl

theorem close_order_exit_time (o : Order) (e : ℚ) (t : ℕ) :
    (close_order o e t).exit_time = some t := rfl

theorem closeBookkeeping_open_orders (sim : TradingSimulator) (s : SimulationState)
    (o : Order) : (closeBookkeeping sim s o).open_orders = s.open_orders := rfl

theorem closeBookkeeping_closed_orders (sim : TradingSimulator) (s : SimulationState)
    (o : Order) : (closeBookkeeping sim s o).closed_orders = s.closed_orders ++ [o] := rfl

theorem closeBookkeeping_max_drawdown_le (sim : TradingSimulator)
    (s : SimulationState) (o : Order) :
    s.max_drawdown ≤ (closeBookkeeping sim s o).max_drawdown := by
  unfold closeBookkeeping
  dsimp only
  split_ifs <;> linarith

theorem closeBookkeeping_pos (sim : TradingSimulator) (s : SimulationState) (o : Order)
    (hb : 0 < s.max_balance) (hd : 0 ≤ s.max_drawdown) :
    0 < (closeBookkeeping sim s o).max_balance ∧
      0 ≤ (closeBookkeeping sim s o).max_drawdown := by
  unfold closeBookkeeping
  dsimp only
  constructor
  · split_ifs <;> linarith
  · split_ifs with h1 h2 h3
    · rw [sub_self, zero_div]
    · exact hd
    · exact div_nonneg (by linarith) (le_of_lt hb)
    · exact hd

theorem foldl_closeBookkeeping_open_orders (sim : TradingSimulator) (l : List Order) :
    ∀ s : SimulationState,
      (l.foldl (closeBookkeeping sim) s).open_orders = s.open_orders := by
  induction l with
  | nil => intro s; rfl
  | cons o l ih =>
    intro s
    rw [List.foldl_cons, ih, closeBookkeeping_open_orders]

theorem foldl_closeBookkeeping_closed_orders (sim : TradingSimulator) (l : List Order) :
    ∀ s : SimulationState,
      (l.foldl (closeBookkeeping sim) s).closed_orders = s.closed_orders ++ l := by
  induction l with
  | nil => intro s; simp
  | cons o l ih =>
    intro s
    rw [List.foldl_cons, ih, closeBookkeeping_closed_orders, List.append_assoc,
      List.singleton_append]

theorem foldl_closeBookkeeping_max_drawdown_le (sim : TradingSimulator)
    (l : List Order) : ∀ s : SimulationState,
      s.max_drawdown ≤ (l.foldl (closeBookkeeping sim) s).max_drawdown := by
  induction l with
  | nil => intro s; exact le_refl _
  | cons o l ih =>
    intro s
    rw [List.foldl_cons]
    exact le_trans (closeBookkeeping_max_drawdown_le sim s o) (ih _)

theorem foldl_closeBookkeeping_pos (sim : TradingSimulator) (l : List Order) :
    ∀ s : SimulationState, 0 < s.max_balance → 0 ≤ s.max_drawdown →
      0 < (l.foldl (closeBookkeeping sim) s).max_balance ∧
        0 ≤ (l.foldl (closeBookkeeping sim) s).max_drawdown := by
  induction l with
  | nil => intro s hb hd; exact ⟨hb, hd⟩
  | cons o l ih =>
    intro s hb hd
    rw [List.foldl_cons]
    obtain ⟨hb', hd'⟩ := closeBookkeeping_pos sim s o hb hd
    exact ih _ hb' hd'

theorem check_orders_open_orders (sim : TradingSimulator) (s : SimulationState)
    (bar : Bar) : (check_orders sim s bar).open_orders =
      s.open_orders.filter (fun o => ! shouldClose o bar) := by
  unfold check_orders
  rw [foldl_closeBookkeeping_open_orders]

theorem check_orders_closed_orders (sim : TradingSimulator) (s : SimulationState)
    (bar : Bar) : (check_orders sim s bar).closed_orders =
      s.closed_orders ++ ((s.open_orders.filter (fun o => shouldClose o bar)).map
        (fun o => closeAtBar o bar)) := by
  unfold check_orders
  rw [foldl_closeBookkeeping_closed_orders]

theorem check_orders_max_drawdown_le (sim : TradingSimulator) (s : SimulationState)
    (bar : Bar) : s.max_drawdown ≤ (check_orders sim s bar).max_drawdown := by
  unfold check_orders
  exact foldl_closeBookkeeping_max_drawdown_le sim _ _

theorem check_orders_pos (sim : TradingSimulator) (s : SimulationState) (bar : Bar)
    (hb : 0 < s.max_balance) (hd : 0 ≤ s.max_drawdown) :
    0 < (check_orders sim s bar).max_balance ∧
      0 ≤ (check_orders sim s bar).max_drawdown := by
  unfold check_orders
  exact foldl_closeBookkeeping_pos sim _ _ hb hd

theorem check_orders_open_length_le (sim : TradingSimulator) (s : SimulationState)
    (bar : Bar) :
    (check_orders sim s bar).open_orders.length ≤ s.open_orders.length := by
  rw [check_orders_open_orders]
  exact List.length_filter_le _ _

theorem open_order_open_length (sim : TradingSimulator) (s : SimulationState)
    (signal : Signal) (bar : Bar) :
    (open_order sim s signal bar).open_orders.length = s.open_orders.length + 1 := by
  unfold open_order
  dsimp only
  rw [List.length_append]
  rfl

theorem open_order_max_drawdown (sim : TradingSimulator) (s : SimulationState)
    (signal : Signal) (bar : Bar) :
    (open_order sim s signal bar).max_drawdown = s.max_drawdown := rfl

theorem open_order_max_balance (sim : TradingSimulator) (s : SimulationState)
    (signal : Signal) (bar : Bar) :
    (open_order sim s signal bar).max_balance = s.max_balance := rfl

theorem open_order_closed_orders (sim : TradingSimulator) (s : SimulationState)
    (signal : Signal) (bar : Bar) :
    (open_order sim s signal bar).closed_orders = s.closed_orders := rfl

theorem open_order_mem (sim : TradingSimulator) (s : SimulationState)
    (signal : Signal) (bar : Bar) :
    ∀ o ∈ (open_order sim s signal bar).open_orders,
      o ∈ s.open_orders ∨
        (o.is_closed = false ∧ o.exit_price = none ∧ o.exit_time = none) := by
  intro o ho
  unfold open_order at ho
  dsimp only at ho
  rw [List.mem_append] at ho
  rcases ho with h | h
  · exact Or.inl h
  · right
    rw [List.mem_singleton] at h
    subst h
    cases hst : signal.type <;> exact ⟨rfl, rfl, rfl⟩

theorem update_equity_open_orders (s : SimulationState) (c : ℚ) :
    (update_equity s c).open_orders = s.open_orders := rfl

theorem update_equity_closed_orders (s : SimulationState) (c : ℚ) :
    (update_equity s c).closed_orders = s.closed_orders := rfl

theorem update_equity_max_drawdown (s : SimulationState) (c : ℚ) :
    (update_equity s c).max_drawdown = s.max_drawdown := rfl

theorem update_equity_max_balance (s : SimulationState) (c : ℚ) :
    (update_equity s c).max_balance = s.max_balance := rfl

theorem signalPhase_max_drawdown (sim : TradingSimulator)
    (predict : ℕ → Except Unit Prediction) (s1 : SimulationState) (i : ℕ) (bar : Bar) :
    (signalPhase sim predict s1 i bar).max_drawdown = s1.max_drawdown := by
  unfold signalPhase
  split
  · split
    · split
      · exact open_order_max_drawdown _ _ _ _
      · rfl
    · rfl
  · rfl

theorem signalPhase_max_balance (sim : TradingSimulator)
    (predict : ℕ → Except Unit Prediction) (s1 : SimulationState) (i : ℕ) (bar : Bar) :
    (signalPhase sim predict s1 i bar).max_balance = s1.max_balance := by
  unfold signalPhase
  split
  · split
    · split
      · exact open_order_max_balance _ _ _ _
      · rfl
    · rfl
  · rfl

theorem signalPhase_closed_orders (sim : TradingSimulator)
    (predict : ℕ → Except Unit Prediction) (s1 : SimulationState) (i : ℕ) (bar : Bar) :
    (signalPhase sim predict s1 i bar).closed_orders = s1.closed_orders := by
  unfold signalPhase
  split
  · split
    · split
      · exact open_order_closed_orders _ _ _ _
      · rfl
    · rfl
  · rfl

theorem signalPhase_open_length_le (sim : TradingSimulator)
    (predict : ℕ → Except Unit Prediction) (s1 : SimulationState) (i : ℕ) (bar : Bar)
    (h : s1.open_orders.length ≤ 3) :
    (signalPhase sim predict s1 i bar).open_orders.length ≤ 3 := by
  unfold signalPhase
  split
  · split
    · split
      · rw [open_order_open_length]
        omega
      · exact h
    · exact h
  · exact h

theorem signalPhase_mem (sim : TradingSimulator)
    (predict : ℕ → Except Unit Prediction) (s1 : SimulationState) (i : ℕ) (bar : Bar) :
    ∀ o ∈ (signalPhase sim predict s1 i bar).open_orders,
      o ∈ s1.open_orders ∨
        (o.is_closed = false ∧ o.exit_price = none ∧ o.exit_time = none) := by
  unfold signalPhase
  split
  · split
    · split
      · exact open_order_mem _ _ _ _
      · exact fun o ho => Or.inl ho
    · exact fun o ho => Or.inl ho
  · exact fun o ho => Or.inl ho

theorem stepBar_max_drawdown (sim : TradingSimulator)
    (predict : ℕ → Except Unit Prediction) (s : SimulationState) (i : ℕ) (bar : Bar) :
    (stepBar sim predict s i bar).max_drawdown =
      (check_orders sim s bar).max_drawdown := by
  unfold stepBar
  rw [update_equity_max_drawdown, signalPhase_max_drawdown]

theorem stepBar_max_balance (sim : TradingSimulator)
    (predict : ℕ → Except Unit Prediction) (s : SimulationState) (i : ℕ) (bar : Bar) :
    (stepBar sim predict s i bar).max_balance =
      (check_orders sim s bar).max_balance := by
  unfold stepBar
  rw [update_equity_max_balance, signalPhase_max_balance]

theorem stepBar_closed_orders (sim : TradingSimulator)
    (predict : ℕ → Except Unit Prediction) (s : SimulationState) (i : ℕ) (bar : Bar) :
    (stepBar sim predict s i bar).closed_orders =
      (check_orders sim s bar).closed_orders := by
  unfold stepBar
  rw [update_equity_closed_orders, signalPhase_closed_orders]

theorem stepBar_max_drawdown_le (sim : TradingSimulator)
    (predict : ℕ → Except Unit Prediction) (s : SimulationState) (i : ℕ) (bar : Bar) :
    s.max_drawdown ≤ (stepBar sim predict s i bar).max_drawdown := by
  rw [stepBar_max_drawdown]
  exact check_orders_max_drawdown_le sim s bar

theorem stepBar_pos (sim : TradingSimulator) (predict : ℕ → Except Unit Prediction)
    (s : SimulationState) (i : ℕ) (bar : Bar)
    (hb : 0 < s.max_balance) (hd : 0 ≤ s.max_drawdown) :
    0 < (stepBar sim predict s i bar).max_balance ∧
      0 ≤ (stepBar sim predict s i bar).max_drawdown := by
  rw [stepBar_max_balance, stepBar_max_drawdown]
  exact check_orders_pos sim s bar hb hd

theorem stepBar_open_length_le (sim : TradingSimulator)
    (predict : ℕ → Except Unit Prediction) (s : SimulationState) (i : ℕ) (bar : Bar)
    (h : s.open_orders.length ≤ 3) :
    (stepBar sim predict s i bar).open_orders.length ≤ 3 := by
  unfold stepBar
  rw [update_equity_open_orders]
  exact signalPhase_open_length_le sim predict _ i bar
    (le_trans (check_orders_open_length_le sim s bar) h)

theorem runFrom_append (sim : TradingSimulator) (predict : ℕ → Except Unit Prediction)
    (l1 l2 : List Bar) : ∀ (i : ℕ) (s : SimulationState),
    runFrom sim predict i (l1 ++ l2) s =
      runFrom sim predict (i + l1.length) l2 (runFrom sim predict i l1 s) := by
  induction l1 with
  | nil => intro i s; simp [runFrom]
  | cons b l ih =>
    intro i s
    rw [List.cons_append]
    show runFrom sim predict (i + 1) (l ++ l2) (stepBar sim predict s i b) = _
    rw [ih]
    congr 1
    simp only [List.length_cons]
    omega

theorem runFrom_max_drawdown_le (sim : TradingSimulator)
    (predict : ℕ → Except Unit Prediction) (l : List Bar) :
    ∀ (i : ℕ) (s : SimulationState),
      s.max_drawdown ≤ (runFrom sim predict i l s).max_drawdown := by
  induction l with
  | nil => intro i s; exact le_refl _
  | cons b l ih =>
    intro i s
    exact le_trans (stepBar_max_drawdown_le sim predict s i b) (ih (i + 1) _)

theorem runFrom_pos (sim : TradingSimulator) (predict : ℕ → Except Unit Prediction)
    (l : List Bar) : ∀ (i : ℕ) (s : SimulationState),
      0 < s.max_balance → 0 ≤ s.max_drawdown →
      0 < (runFrom sim predict i l s).max_balance ∧
        0 ≤ (runFrom sim predict i l s).max_drawdown := by
  induction l with
  | nil => intro i s hb hd; exact ⟨hb, hd⟩
  | cons b l ih =>
    intro i s hb hd
    obtain ⟨hb', hd'⟩ := stepBar_pos sim predict s i b hb hd
    exact ih (i + 1) _ hb' hd'

theorem runFrom_open_length_le (sim : TradingSimulator)
    (predict : ℕ → Except Unit Prediction) (l : List Bar) :
    ∀ (i : ℕ) (s : SimulationState), s.open_orders.length ≤ 3 →
      (runFrom sim predict i l s).open_orders.length ≤ 3 := by
  induction l with
  | nil => intro i s h; exact h
  | cons b l ih =>
    intro i s h
    exact ih (i + 1) _ (stepBar_open_length_le sim predict s i b h)

theorem runFrom_closed_append (sim : TradingSimulator)
    (predict : ℕ → Except Unit Prediction) (l : List Bar) :
    ∀ (i : ℕ) (s : SimulationState),
      ∃ t, (runFrom sim predict i l s).closed_orders = s.closed_orders ++ t := by
  induction l with
  | nil => intro i s; exact ⟨[], by simp [runFrom]⟩
  | cons b l ih =>
    intro i s
    obtain ⟨t2, ht2⟩ := ih (i + 1) (stepBar sim predict s i b)
    refine ⟨((s.open_orders.filter (fun o => shouldClose o b)).map
      (fun o => closeAtBar o b)) ++ t2, ?_⟩
    show (runFrom sim predict (i + 1) l (stepBar sim predict s i b)).closed_orders = _
    rw [ht2, stepBar_closed_orders, check_orders_closed_orders, List.append_assoc]

theorem closeAtBar_closed_fields (o : Order) (bar : Bar)
    (h : shouldClose o bar = true) :
    (closeAtBar o bar).is_closed = true ∧ (closeAtBar o bar).exit_price ≠ none ∧
      (closeAtBar o bar).exit_time ≠ none := by
  unfold shouldClose at h
  unfold closeAtBar
  cases hd : exitDecision o bar with
  | none => rw [hd] at h; cases h
  | some e =>
    refine ⟨rfl, ?_, ?_⟩
    · show (close_order o e bar.timestamp).exit_price ≠ none
      rw [close_order_exit_price]
      simp
    · show (close_order o e bar.timestamp).exit_time ≠ none
      rw [close_order_exit_time]
      simp

theorem check_orders_inv (sim : TradingSimulator) (s : SimulationState) (bar : Bar)
    (h : orderBookInv s) : orderBookInv (check_orders sim s bar) := by
  obtain ⟨hopen, hclosed⟩ := h
  constructor
  · intro o ho
    rw [check_orders_open_orders] at ho
    exact hopen o (List.mem_filter.mp ho).1
  · intro o ho
    rw [check_orders_closed_orders, List.mem_append] at ho
    rcases ho with h | h
    · exact hclosed o h
    · rw [List.mem_map] at h
      obtain ⟨a, ha, rfl⟩ := h
      exact closeAtBar_closed_fields a bar (List.mem_filter.mp ha).2

theorem signalPhase_inv (sim : TradingSimulator)
    (predict : ℕ → Except Unit Prediction) (s1 : SimulationState) (i : ℕ) (bar : Bar)
    (h : orderBookInv s1) : orderBookInv (signalPhase sim predict s1 i bar) := by
  obtain ⟨hopen, hclosed⟩ := h
  constructor
  · intro o ho
    rcases signalPhase_mem sim predict s1 i bar o ho with hm | hf
    · exact hopen o hm
    · exact hf
  · intro o ho
    rw [signalPhase_closed_orders] at ho
    exact hclosed o ho

theorem stepBar_inv (sim : TradingSimulator) (predict : ℕ → Except Unit Prediction)
    (s : SimulationState) (i : ℕ) (bar : Bar) (h : orderBookInv s) :
    orderBookInv (stepBar sim predict s i bar) := by
  unfold stepBar
  have h1 := signalPhase_inv sim predict (check_orders sim s bar) i bar
    (check_orders_inv sim s bar h)
  exact ⟨fun o ho => h1.1 o (by rwa [update_equity_open_orders] at ho),
         fun o ho => h1.2 o (by rwa [update_equity_closed_orders] at ho)⟩

theorem runFrom_inv (sim : TradingSimulator) (predict : ℕ → Except Unit Prediction)
    (l : List Bar) : ∀ (i : ℕ) (s : SimulationState), orderBookInv s →
      orderBookInv (runFrom sim predict i l s) := by
  induction l with
  | nil => intro i s h; exact h
  | cons b l ih =>
    intro i s h
    exact ih (i + 1) _ (stepBar_inv sim predict s i b h)

theorem finalize_spec (s : SimulationState) (prices : List Bar) (lastBar : Bar)
    (h : prices.getLast? = some lastBar) :
    finalize s prices =
      { s with
        open_orders := []
        closed_orders := s.closed_orders ++
          s.open_orders.map (fun o => close_order o lastBar.close lastBar.timestamp) } := by
  unfold finalize
  rw [h]

theorem finalize_inv (s : SimulationState) (prices : List Bar)
    (h : orderBookInv s) : orderBookInv (finalize s prices) := by
  obtain ⟨-, hclosed⟩ := h
  unfold finalize
  cases hl : prices.getLast? with
  | none => exact ⟨by simp, fun o ho => hclosed o ho⟩
  | some lastBar =>
    constructor
    · simp
    · intro o ho
      simp only [List.mem_append] at ho
      rcases ho with h | h
      · exact hclosed o h
      · rw [List.mem_map] at h
        obtain ⟨a, _, rfl⟩ := h
        refine ⟨close_order_is_closed _ _ _, ?_, ?_⟩
        · rw [close_order_exit_price]; simp
        · rw [close_order_exit_time]; simp

theorem stepBar_empty (sim : TradingSimulator) (predict : ℕ → Except Unit Prediction)
    (s : SimulationState) (i : ℕ) (bar : Bar) (hi : i ≤ 28)
    (ho : s.open_orders = []) (hc : s.closed_orders = []) :
    (stepBar sim predict s i bar).open_orders = [] ∧
      (stepBar sim predict s i bar).closed_orders = [] := by
  have hguard : ¬ (i % 5 = 0 ∧ i > 28) := by
    rintro ⟨-, hgt⟩
    omega
  unfold stepBar signalPhase
  rw [if_neg hguard]
  constructor
  · rw [update_equity_open_orders, check_orders_open_orders, ho]
    rfl
  · rw [update_equity_closed_orders, check_orders_closed_orders, ho, hc]
    rfl

theorem runFrom_warmup_empty (sim : TradingSimulator)
    (predict : ℕ → Except Unit Prediction) (l : List Bar) :
    ∀ (i : ℕ) (s : SimulationState), i + l.length ≤ 29 →
      s.open_orders = [] → s.closed_orders = [] →
      (runFrom sim predict i l s).open_orders = [] ∧
        (runFrom sim predict i l s).closed_orders = [] := by
  induction l with
  | nil => intro i s _ ho hc; exact ⟨ho, hc⟩
  | cons b l ih =>
    intro i s hi ho hc
    simp only [List.length_cons] at hi
    obtain ⟨ho', hc'⟩ := stepBar_empty sim predict s i b (by omega) ho hc
    exact ih (i + 1) _ (by omega) ho' hc'

/-! Helper lemmas about mean, variance and the Sharpe proxy. -/

theorem list_sum_const (xs : List ℚ) (c : ℚ) (h : ∀ x ∈ xs, x = c) :
    xs.sum = xs.length * c := by
  rw [List.sum_eq_card_nsmul xs c h, nsmul_eq_mul]

theorem listMean_const (xs : List ℚ) (c : ℚ) (hne : xs ≠ []) (h : ∀ x ∈ xs, x = c) :
    listMean xs = c := by
  unfold listMean
  rw [list_sum_const xs c h]
  have hlen : (xs.length : ℚ) ≠ 0 :=
    Nat.cast_ne_zero.mpr (by simpa [List.length_eq_zero] using hne)
  field_simp

theorem listVariance_const (xs : List ℚ) (c : ℚ) (h : ∀ x ∈ xs, x = c) :
    listVariance xs = 0 := by
  rcases eq_or_ne xs [] with rfl | hne
  · simp [listVariance]
  · unfold listVariance
    have hz : ∀ y ∈ xs.map (fun x => (x - listMean xs) ^ 2), y = 0 := by
      intro y hy
      rw [List.mem_map] at hy
      obtain ⟨x, hx, rfl⟩ := hy
      rw [listMean_const xs c hne h, h x hx]
      ring
    rw [list_sum_const _ 0 hz]
    simp

theorem listVariance_nonneg (xs : List ℚ) : 0 ≤ listVariance xs := by
  unfold listVariance
  apply div_nonneg
  · apply List.sum_nonneg
    intro x hx
    rw [List.mem_map] at hx
    obtain ⟨a, -, rfl⟩ := hx
    positivity
  · positivity

theorem sharpe_short (xs : List ℚ) (h : ¬ 1 < xs.length) : sharpe xs = 0 := by
  unfold sharpe
  rw [if_neg h]

theorem sharpe_const (xs : List ℚ) (c : ℚ) (h : ∀ x ∈ xs, x = c) : sharpe xs = 0 := by
  have hs : listStdev xs = 0 := by
    unfold listStdev
    rw [listVariance_const xs c h]
    norm_num
  unfold sharpe
  rw [hs]
  simp

theorem listStdev_pos (xs : List ℚ) (h : listVariance xs ≠ 0) : 0 < listStdev xs := by
  unfold listStdev
  rw [Real.sqrt_pos]
  have h0 := listVariance_nonneg xs
  exact_mod_cast lt_of_le_of_ne h0 (Ne.symm h)

theorem sharpe_formula (xs : List ℚ) (h1 : 1 < xs.length)
    (h2 : listVariance xs ≠ 0) :
    sharpe xs = ((listMean xs : ℚ) : ℝ) / listStdev xs * Real.sqrt 252 := by
  unfold sharpe
  rw [if_pos h1, if_pos (listStdev_pos xs h2)]

/-! Idle-step machinery for concrete runs. -/

theorem stepBar_idle (sim : TradingSimulator) (predict : ℕ → Except Unit Prediction)
    (s : SimulationState) (i : ℕ) (bar : Bar)
    (hg : ¬ (i % 5 = 0 ∧ i > 28)) (ho : s.open_orders = []) :
    stepBar sim predict s i bar = { s with equity := s.balance } := by
  obtain ⟨bal, eq, mar, oo, co, mb, md⟩ := s
  replace ho : oo = [] := ho
  subst ho
  unfold stepBar signalPhase check_orders update_equity
  rw [if_neg hg]
  simp

theorem runFrom_idle (sim : TradingSimulator) (predict : ℕ → Except Unit Prediction)
    (l : List Bar) : ∀ (i : ℕ) (s : SimulationState),
    (∀ j, i ≤ j → j < i + l.length → ¬ (j % 5 = 0 ∧ j > 28)) →
    s.open_orders = [] → s.equity = s.balance →
    runFrom sim predict i l s = s := by
  induction l with
  | nil => intro i s _ _ _; rfl
  | cons b l ih =>
    intro i s hj ho heq
    show runFrom sim predict (i + 1) l (stepBar sim predict s i b) = s
    rw [stepBar_idle sim predict s i b
      (hj i (le_refl i) (by simp only [List.length_cons]; omega)) ho]
    have hs : ({ s with equity := s.balance } : SimulationState) = s := by
      obtain ⟨bal, eq, mar, oo, co, mb, md⟩ := s
      replace heq : eq = bal := heq
      subst heq
      rfl
    rw [hs]
    refine ih (i + 1) s (fun j hj1 hj2 => hj j (by omega) ?_) ho heq
    simp only [List.length_cons]
    omega

theorem warmup30 (sim : TradingSimulator) (predict : ℕ → Except Unit Prediction) :
    runFrom sim predict 0 ((List.range 30).map flatBar) (initState sim) = initState sim := by
  apply runFrom_idle
  · intro j _ hj
    simp only [List.length_map, List.length_range] at hj
    omega
  · rfl
  · rfl

theorem runLoop_bars31_eq : runLoop sim0 predict0 bars31 = state31 := by
  unfold runLoop
  have h : bars31 = (List.range 30).map flatBar ++ [flatBar 30] := by
    unfold bars31
    rw [List.range_succ, List.map_append]
    rfl
  rw [h, runFrom_append, warmup30]
  simp only [List.length_map, List.length_range, Nat.zero_add]
  show runFrom sim0 predict0 30 [flatBar 30] (initState sim0) = state31
  simp only [runFrom]
  norm_num [stepBar, signalPhase, check_orders, update_equity, open_order,
    generate_signal, predict0, pips_to_price, price_to_pips, calculate_margin,
    initState, sim0, flatBar, state31, bars31_open_order]

theorem runLoop_bars32_eq : runLoop sim0 predict0 bars32 = c2_final := by
  unfold runLoop bars32
  rw [runFrom_append, warmup30]
  simp only [List.length_map, List.length_range, Nat.zero_add]
  show runFrom sim0 predict0 30 [wideBar, crashBar] (initState sim0) = c2_final
  simp only [runFrom]
  norm_num [stepBar, signalPhase, check_orders, update_equity, open_order,
    generate_signal, predict0, pips_to_price, price_to_pips, calculate_margin,
    initState, sim0, wideBar, crashBar, c2_final, bars32_order, shouldClose,
    exitDecision, closeAtBar, closeBookkeeping, close_order]

/-! The claims. -/

/-- Claim C10: the pip converters are mutually inverse at every fixed
reference price: `price_to_pips (pips_to_price p r) r = p` and
`pips_to_price (price_to_pips d r) r = d`, because both select the same
scale (0.01 exactly when `r > 10`, else 0.0001) and one multiplies while
the other divides by it. -/
theorem c10_pip_round_trip : ∀ p d r : ℚ,
    price_to_pips (pips_to_price p r) r = p ∧
      pips_to_price (price_to_pips d r) r = d := by
  intro p d r
  unfold price_to_pips pips_to_price
  split_ifs <;> constructor <;> norm_num

/-- Claim C7: on close at exit price `e`, `profit_pips` is
`(e − entry)/scale` for BUY and `(entry − e)/scale` for SELL with scale
0.01 when the reference (entry) price exceeds 10 and 0.0001 otherwise, and
`profit_loss = profit_pips * lot_size * 10`; Scenario A (BUY entry 1.1000,
lot 0.01, closed at TP 1.1050 by a bar with high 1.1060/low 1.0990) yields
50 pips and 5.0; Scenario C (SELL entry 149.50 closed at 149.00) yields
50 pips. -/
theorem c7_profit_numbers :
    (∀ (o : Order) (e : ℚ) (t : ℕ),
      (close_order o e t).profit_pips =
        (match o.order_type with
         | OrderType.BUY => e - o.entry_price
         | OrderType.SELL => o.entry_price - e) /
          (if o.entry_price > 10 then (0.01 : ℚ) else 0.0001) ∧
      (close_order o e t).profit_loss =
        (close_order o e t).profit_pips * o.lot_size * 10)
  ∧ ((closeAtBar scenarioA_order scenarioA_bar).exit_price =
      some scenarioA_order.take_profit ∧
     (closeAtBar scenarioA_order scenarioA_bar).profit_pips = 50 ∧
     (closeAtBar scenarioA_order scenarioA_bar).profit_loss = 5)
  ∧ (close_order scenarioC_order 149 3).profit_pips = 50 := by
  refine ⟨?_, by with_unfolding_all decide, by with_unfolding_all decide⟩
  intro o e t
  constructor
  · cases ho : o.order_type <;>
      simp only [close_order, price_to_pips, ho] <;> split_ifs <;> rfl
  · rfl

/-- Claim C9: when an order opens, `tp_distance = (high − low) * 2 *
risk_factor` and `sl_distance = (high − low) * 1.5 * risk_factor`; BUY
gets `TP = entry + tp_distance`, `SL = entry − sl_distance` and its stored
entry is offset upward by the spread converted at the entry price's pip
scale; SELL gets `TP = entry − tp_distance`, `SL = entry + sl_distance`
with no spread adjustment. -/
theorem c9_open_order_levels (sim : TradingSimulator) (s : SimulationState)
    (signal : Signal) (bar : Bar) :
    (signal.type = OrderType.BUY →
      (open_order sim s signal bar).open_orders = s.open_orders ++
        [{ order_type := OrderType.BUY
           entry_price := bar.close + pips_to_price sim.spread_pips bar.close
           entry_time := bar.timestamp
           lot_size := sim.lot_size
           take_profit := bar.close + (bar.high - bar.low) * 2 * sim.risk_factor
           stop_loss := bar.close - (bar.high - bar.low) * 1.5 * sim.risk_factor }])
  ∧ (signal.type = OrderType.SELL →
      (open_order sim s signal bar).open_orders = s.open_orders ++
        [{ order_type := OrderType.SELL
           entry_price := bar.close
           entry_time := bar.timestamp
           lot_size := sim.lot_size
           take_profit := bar.close - (bar.high - bar.low) * 2 * sim.risk_factor
           stop_loss := bar.close + (bar.high - bar.low) * 1.5 * sim.risk_factor }])
  ∧ (open_order sim s signal bar).margin_used =
      s.margin_used + sim.lot_size * 100000 / sim.leverage := by
  refine ⟨?_, ?_, ?_⟩
  · intro h
    simp [open_order, h]
  · intro h
    simp [open_order, h]
  · cases h : signal.type <;> simp [open_order, calculate_margin, h]

/-- Witness for C9 at a concrete BUY and SELL signal on a concrete bar. -/
theorem c9_witness :
    ((open_order sim0 noTradesState buySignal (flatBar 0)).open_orders =
      noTradesState.open_orders ++
        [{ order_type := OrderType.BUY
           entry_price := (flatBar 0).close +
             pips_to_price sim0.spread_pips (flatBar 0).close
           entry_time := (flatBar 0).timestamp
           lot_size := sim0.lot_size
           take_profit := (flatBar 0).close +
             ((flatBar 0).high - (flatBar 0).low) * 2 * sim0.risk_factor
           stop_loss := (flatBar 0).close -
             ((flatBar 0).high - (flatBar 0).low) * 1.5 * sim0.risk_factor }])
  ∧ ((open_order sim0 noTradesState sellSignal (flatBar 0)).open_orders =
      noTradesState.open_orders ++
        [{ order_type := OrderType.SELL
           entry_price := (flatBar 0).close
           entry_time := (flatBar 0).timestamp
           lot_size := sim0.lot_size
           take_profit := (flatBar 0).close -
             ((flatBar 0).high - (flatBar 0).low) * 2 * sim0.risk_factor
           stop_loss := (flatBar 0).close +
             ((flatBar 0).high - (flatBar 0).low) * 1.5 * sim0.risk_factor }]) :=
  ⟨(c9_open_order_levels sim0 noTradesState buySignal (flatBar 0)).1 rfl,
   (c9_open_order_levels sim0 noTradesState sellSignal (flatBar 0)).2.1 rfl⟩

/-- Claim C6: the signal generator returns an order intent iff the
predictor call succeeds with confidence at least 0.6 and a predicted
change strictly outside the dead zone `[-0.001, 0.001]` (BUY above, SELL
below with magnitude `|predicted_change|`); in every other case, including
a raised exception, it returns no signal and never propagates the error. -/
theorem c6_signal_policy :
    (∀ e : Unit, generate_signal (Except.error e) = none)
  ∧ (∀ r : Prediction, r.confidence < 0.6 → generate_signal (Except.ok r) = none)
  ∧ (∀ r : Prediction, 0.6 ≤ r.confidence → 0.001 < r.price_change →
      generate_signal (Except.ok r) =
        some { type := OrderType.BUY, confidence := r.confidence,
               predicted_change := r.price_change })
  ∧ (∀ r : Prediction, 0.6 ≤ r.confidence → r.price_change < -0.001 →
      generate_signal (Except.ok r) =
        some { type := OrderType.SELL, confidence := r.confidence,
               predicted_change := |r.price_change| })
  ∧ (∀ r : Prediction, -0.001 ≤ r.price_change → r.price_change ≤ 0.001 →
      generate_signal (Except.ok r) = none)
  ∧ (∀ r : Prediction, (generate_signal (Except.ok r)).isSome = true ↔
      (0.6 ≤ r.confidence ∧
        (0.001 < r.price_change ∨ r.price_change < -0.001))) := by
  refine ⟨fun e => rfl, ?_, ?_, ?_, ?_, ?_⟩
  · intro r h
    simp only [generate_signal]
    rw [if_pos h]
  · intro r h1 h2
    simp only [generate_signal]
    rw [if_neg (not_lt.mpr h1), if_pos h2]
  · intro r h1 h2
    simp only [generate_signal]
    rw [if_neg (not_lt.mpr h1), if_neg (by linarith), if_pos h2]
  · intro r h1 h2
    simp only [generate_signal]
    split_ifs <;> first | rfl | (exfalso; linarith)
  · intro r
    simp only [generate_signal]
    split_ifs with h1 h2 h3
    · simp only [Option.isSome_none, Bool.false_eq_true, false_iff]
      rintro ⟨hc, -⟩
      linarith
    · simp only [Option.isSome_some, true_iff]
      exact ⟨not_lt.mp h1, Or.inl h2⟩
    · simp only [Option.isSome_some, true_iff]
      exact ⟨not_lt.mp h1, Or.inr h3⟩
    · simp only [Option.isSome_none, Bool.false_eq_true, false_iff]
      rintro ⟨-, hor⟩
      rcases hor with h | h <;> linarith

/-- Witness for C6 at concrete predictions: a confident bullish forecast
yields a BUY intent; low confidence and the dead zone yield no signal. -/
theorem c6_witness :
    generate_signal (Except.ok { price_change := 0.01, confidence := 0.9 }) =
      some { type := OrderType.BUY, confidence := 0.9, predicted_change := 0.01 } ∧
    generate_signal (Except.ok { price_change := 0.01, confidence := 0.5 }) = none ∧
    generate_signal (Except.ok { price_change := 0.0005, confidence := 0.9 }) = none :=
  ⟨c6_signal_policy.2.2.1 _ (by norm_num) (by norm_num),
   c6_signal_policy.2.1 _ (by norm_num),
   c6_signal_policy.2.2.2.2.1 _ (by norm_num) (by norm_num)⟩

/-- Claim C5 (amended): in the per-bar exit check take-profit is tested
before stop-loss, so a BUY order whose bar reaches both levels closes at
`take_profit` — provided the take-profit price is not exactly 0, because
the source guard `if should_close and exit_price:` treats a 0.0 exit price
as falsy and skips the close; symmetrically for SELL. -/
theorem c5_tp_before_sl (o : Order) (bar : Bar) :
    (o.order_type = OrderType.BUY → o.take_profit ≤ bar.high →
      bar.low ≤ o.stop_loss → o.take_profit ≠ 0 →
      exitDecision o bar = some o.take_profit ∧ shouldClose o bar = true ∧
        closeAtBar o bar = close_order o o.take_profit bar.timestamp)
  ∧ (o.order_type = OrderType.SELL → bar.low ≤ o.take_profit →
      o.stop_loss ≤ bar.high → o.take_profit ≠ 0 →
      exitDecision o bar = some o.take_profit ∧ shouldClose o bar = true ∧
        closeAtBar o bar = close_order o o.take_profit bar.timestamp) := by
  constructor
  · intro ht hh hl hz
    have hd : exitDecision o bar = some o.take_profit := by
      unfold exitDecision
      rw [ht]
      exact if_pos hh
    refine ⟨hd, ?_, ?_⟩
    · unfold shouldClose
      rw [hd]
      exact decide_eq_true hz
    · unfold closeAtBar
      rw [hd]
  · intro ht hh hl hz
    have hd : exitDecision o bar = some o.take_profit := by
      unfold exitDecision
      rw [ht]
      exact if_pos hh
    refine ⟨hd, ?_, ?_⟩
    · unfold shouldClose
      rw [hd]
      exact decide_eq_true hz
    · unfold closeAtBar
      rw [hd]

/-- Counterexample to C5 as stated: a BUY order whose take-profit is
exactly 0 on a bar that reaches both its take-profit and its stop-loss is
not closed at all (the truthiness guard skips it), so it does not close at
`take_profit`. -/
theorem c5_counterexample :
    zeroTP_order.order_type = OrderType.BUY ∧
    zeroTP_order.take_profit ≤ zeroTP_bar.high ∧
    zeroTP_bar.low ≤ zeroTP_order.stop_loss ∧
    shouldClose zeroTP_order zeroTP_bar = false ∧
    (check_orders sim0 zeroTP_state zeroTP_bar).open_orders = [zeroTP_order] ∧
    (check_orders sim0 zeroTP_state zeroTP_bar).closed_orders = [] := by
  with_unfolding_all decide

/-- Witness for C5 at Scenario A's order on a bar spanning both levels. -/
theorem c5_witness :
    scenarioA_order.take_profit ≤ spanBar.high ∧
    spanBar.low ≤ scenarioA_order.stop_loss ∧
    (exitDecision scenarioA_order spanBar = some scenarioA_order.take_profit ∧
     shouldClose scenarioA_order spanBar = true ∧
     closeAtBar scenarioA_order spanBar =
       close_order scenarioA_order scenarioA_order.take_profit spanBar.timestamp) :=
  ⟨by norm_num [scenarioA_order, spanBar], by norm_num [scenarioA_order, spanBar],
   (c5_tp_before_sl scenarioA_order spanBar).1 rfl
     (by norm_num [scenarioA_order, spanBar])
     (by norm_num [scenarioA_order, spanBar])
     (by norm_num [scenarioA_order])⟩

/-- Claim C8: the compiled report resolves degenerate inputs to defined
neutral values: zero closed trades give `win_rate = 0`, `sharpe = 0`,
`total_profit_loss = 0` and an empty ledger; one trade, or several trades
with identical profit_loss (standard deviation 0), give `sharpe = 0`;
otherwise `sharpe = mean/stdev * sqrt 252` over per-trade profit_loss. -/
theorem c8_degenerate_report :
    (∀ s : SimulationState, s.closed_orders = [] →
      (compile_results s).win_rate = 0 ∧ (compile_results s).sharpe = 0 ∧
      (compile_results s).total_profit_loss = 0 ∧ (compile_results s).trades = [])
  ∧ (∀ (s : SimulationState) (o : Order), s.closed_orders = [o] →
      (compile_results s).sharpe = 0)
  ∧ (∀ (s : SimulationState) (c : ℚ), (∀ o ∈ s.closed_orders, o.profit_loss = c) →
      (compile_results s).sharpe = 0)
  ∧ (∀ s : SimulationState, 1 < s.closed_orders.length →
      listVariance (s.closed_orders.map (fun o => o.profit_loss)) ≠ 0 →
      (compile_results s).sharpe =
        ((listMean (s.closed_orders.map (fun o => o.profit_loss)) : ℚ) : ℝ) /
          listStdev (s.closed_orders.map (fun o => o.profit_loss)) *
            Real.sqrt 252) := by
  refine ⟨?_, ?_, ?_, ?_⟩
  · intro s h
    refine ⟨?_, ?_, ?_, ?_⟩
    · show (if (s.closed_orders.length : ℕ) > 0 then _ else (0 : ℚ)) = 0
      rw [h]
      rfl
    · show sharpe (s.closed_orders.map (fun o => o.profit_loss)) = 0
      rw [h]
      exact sharpe_short _ (by norm_num)
    · show (s.closed_orders.map (fun o => o.profit_loss)).sum = 0
      rw [h]
      rfl
    · show s.closed_orders = []
      exact h
  · intro s o h
    show sharpe (s.closed_orders.map (fun o => o.profit_loss)) = 0
    rw [h]
    exact sharpe_short _ (by norm_num)
  · intro s c h
    show sharpe (s.closed_orders.map (fun o => o.profit_loss)) = 0
    refine sharpe_const _ c ?_
    intro x hx
    rw [List.mem_map] at hx
    obtain ⟨o, ho, rfl⟩ := hx
    exact h o ho
  · intro s h1 h2
    show sharpe (s.closed_orders.map (fun o => o.profit_loss)) = _
    exact sharpe_formula _ (by simpa using h1) h2

/-- Witness for C8: the empty, one-trade, twin-trade and mixed-trade
states. -/
theorem c8_witness :
    ((compile_results noTradesState).win_rate = 0 ∧
     (compile_results noTradesState).sharpe = 0 ∧
     (compile_results noTradesState).total_profit_loss = 0 ∧
     (compile_results noTradesState).trades = []) ∧
    (compile_results oneTradeState).sharpe = 0 ∧
    (compile_results twinTradesState).sharpe = 0 ∧
    (compile_results mixedTradesState).sharpe =
      ((listMean (mixedTradesState.closed_orders.map (fun o => o.profit_loss)) : ℚ) : ℝ) /
        listStdev (mixedTradesState.closed_orders.map (fun o => o.profit_loss)) *
          Real.sqrt 252 :=
  ⟨c8_degenerate_report.1 noTradesState rfl,
   c8_degenerate_report.2.1 oneTradeState _ rfl,
   c8_degenerate_report.2.2.1 twinTradesState 5 (by with_unfolding_all decide),
   c8_degenerate_report.2.2.2 mixedTradesState (by norm_num [mixedTradesState])
     (by with_unfolding_all decide)⟩

/-- Claim C3: an order opens only on a bar whose index is a multiple of 5
with at least 28 prior bars, only when a signal is emitted, and only when
fewer than 3 orders are open; consequently at most 3 orders are ever open
at a bar boundary, and a price series with fewer than 28 bars never opens
(or closes) any order. -/
theorem c3_gating (sim : TradingSimulator) (predict : ℕ → Except Unit Prediction)
    (prices : List Bar) :
    (∀ n, (run_take sim predict prices n).open_orders.length ≤ 3)
  ∧ (prices.length < 28 → ∀ n,
      (run_take sim predict prices n).open_orders = [] ∧
        (run_take sim predict prices n).closed_orders = [])
  ∧ (∀ (s : SimulationState) (i : ℕ) (bar : Bar),
      ¬ (i % 5 = 0 ∧ 28 ≤ i) ∨ generate_signal (predict i) = none ∨
        3 ≤ (check_orders sim s bar).open_orders.length →
      (stepBar sim predict s i bar).open_orders =
        (check_orders sim s bar).open_orders) := by
  refine ⟨?_, ?_, ?_⟩
  · intro n
    apply runFrom_open_length_le
    show (initState sim).open_orders.length ≤ 3
    norm_num [initState]
  · intro hlen n
    apply runFrom_warmup_empty sim predict _ 0 _ ?_ rfl rfl
    have h := List.length_take n prices
    omega
  · intro s i bar h
    unfold stepBar signalPhase
    rw [update_equity_open_orders]
    rcases h with h | h | h
    · rw [if_neg (fun hc => h ⟨hc.1, by omega⟩)]
    · rw [h]
      split <;> rfl
    · split
      · split
        · rw [if_neg (by omega)]
        · rfl
      · rfl

/-- Witness for C3 on a 10-bar series (below warm-up) and a concrete
non-opening step. -/
theorem c3_witness :
    (run_take sim0 predict0 bars10 10).open_orders.length ≤ 3 ∧
    (run_take sim0 predict0 bars10 10).open_orders = [] ∧
    (run_take sim0 predict0 bars10 10).closed_orders = [] ∧
    (stepBar sim0 predict0 noTradesState 7 (flatBar 7)).open_orders =
      (check_orders sim0 noTradesState (flatBar 7)).open_orders :=
  ⟨(c3_gating sim0 predict0 bars10).1 10,
   ((c3_gating sim0 predict0 bars10).2.1 (by norm_num [bars10]) 10).1,
   ((c3_gating sim0 predict0 bars10).2.1 (by norm_num [bars10]) 10).2,
   (c3_gating sim0 predict0 bars10).2.2 noTradesState 7 (flatBar 7)
     (Or.inl (by decide))⟩

/-- Claim C4: for every order reachable in a run (open or closed, at any
bar boundary and after finalization), `exit_price` and `exit_time` are set
iff the closed flag is true; open orders are unclosed; and the closed-order
list is append-only (orders, once closed, are never changed or removed),
so the false-to-true transition happens exactly once. -/
theorem c4_exit_iff_closed (sim : TradingSimulator)
    (predict : ℕ → Except Unit Prediction) (prices : List Bar) :
    (∀ n o, (o ∈ (run_take sim predict prices n).open_orders ∨
             o ∈ (run_take sim predict prices n).closed_orders) →
       ((o.exit_price ≠ none ∧ o.exit_time ≠ none) ↔ o.is_closed = true))
  ∧ (∀ n, orderBookInv (run_take sim predict prices n))
  ∧ orderBookInv (run_backtest sim predict prices)
  ∧ (∀ n m, n ≤ m → ∃ t, (run_take sim predict prices m).closed_orders =
      (run_take sim predict prices n).closed_orders ++ t)
  ∧ (∃ t, (run_backtest sim predict prices).closed_orders =
      (runLoop sim predict prices).closed_orders ++ t) := by
  have hinit : orderBookInv (initState sim) := by
    constructor
    · intro o ho
      simp [initState] at ho
    · intro o ho
      simp [initState] at ho
  have hrun : ∀ n, orderBookInv (run_take sim predict prices n) :=
    fun n => runFrom_inv sim predict _ 0 _ hinit
  refine ⟨?_, hrun, ?_, ?_, ?_⟩
  · intro n o ho
    rcases ho with ho | ho
    · obtain ⟨hf, hp, ht⟩ := (hrun n).1 o ho
      rw [hf, hp, ht]
      simp
    · obtain ⟨hf, hp, ht⟩ := (hrun n).2 o ho
      rw [hf]
      simp [hp, ht]
  · exact finalize_inv _ prices (runFrom_inv sim predict prices 0 _ hinit)
  · intro n m hnm
    have hsplit : prices.take m = prices.take n ++ (prices.drop n).take (m - n) := by
      rw [← List.take_add]
      congr 1
      omega
    unfold run_take
    rw [hsplit, runFrom_append]
    exact runFrom_closed_append sim predict _ _ _
  · unfold run_backtest finalize
    cases hl : prices.getLast? with
    | none => exact ⟨[], by simp⟩
    | some lastBar => exact ⟨_, rfl⟩

/-- Witness for C4: the order left open by the 31-bar run satisfies the
iff, and the closed ledger between bar 10 and bar 31 extends by a list. -/
theorem c4_witness :
    ((bars31_open_order.exit_price ≠ none ∧ bars31_open_order.exit_time ≠ none) ↔
      bars31_open_order.is_closed = true) ∧
    orderBookInv (run_backtest sim0 predict0 bars31) ∧
    (∃ t, (run_take sim0 predict0 bars31 31).closed_orders =
      (run_take sim0 predict0 bars31 10).closed_orders ++ t) :=
  ⟨(c4_exit_iff_closed sim0 predict0 bars31).1 31 bars31_open_order
      (Or.inl (by
        show bars31_open_order ∈ (run_take sim0 predict0 bars31 31).open_orders
        have htake : bars31.take 31 = bars31 := by
          have hl : bars31.length = 31 := by simp [bars31]
          rw [← hl, List.take_length]
        unfold run_take
        rw [htake]
        show bars31_open_order ∈ (runLoop sim0 predict0 bars31).open_orders
        rw [runLoop_bars31_eq]
        simp [state31])),
   (c4_exit_iff_closed sim0 predict0 bars31).2.2.1,
   (c4_exit_iff_closed sim0 predict0 bars31).2.2.2.1 10 31 (by omega)⟩

/-- Claim C2 (amended): over any run with a positive initial balance,
`max_drawdown` is non-decreasing and always non-negative; the spec's upper
bound of 1 does not hold in general — it fails as soon as a closing loss
pushes the balance below zero (see the counterexample). -/
theorem c2_drawdown_monotone (sim : TradingSimulator)
    (predict : ℕ → Except Unit Prediction) (prices : List Bar)
    (hb : 0 < sim.initial_balance) :
    ∀ n m : ℕ, n ≤ m →
      0 ≤ (run_take sim predict prices n).max_drawdown ∧
      (run_take sim predict prices n).max_drawdown ≤
        (run_take sim predict prices m).max_drawdown := by
  intro n m hnm
  constructor
  · refine (runFrom_pos sim predict _ 0 _ ?_ ?_).2
    · show (0 : ℚ) < (initState sim).max_balance
      exact hb
    · show (0 : ℚ) ≤ (initState sim).max_drawdown
      exact le_refl 0
  · have hsplit : prices.take m = prices.take n ++ (prices.drop n).take (m - n) := by
      rw [← List.take_add]
      congr 1
      omega
    unfold run_take
    rw [hsplit, runFrom_append]
    exact runFrom_max_drawdown_le sim predict _ _ _

/-- Counterexample to C2 as stated: on `bars32` (default simulator
parameters, one losing trade worth −450000.2 against a 10000 balance) the
run's `max_drawdown` reaches 45.00002, far outside `[0, 1]`. -/
theorem c2_counterexample : 1 < (runLoop sim0 predict0 bars32).max_drawdown := by
  rw [runLoop_bars32_eq]
  norm_num [c2_final]

/-- Witness for C2 on the 32-bar crash series. -/
theorem c2_witness :
    0 ≤ (run_take sim0 predict0 bars32 10).max_drawdown ∧
      (run_take sim0 predict0 bars32 10).max_drawdown ≤
        (run_take sim0 predict0 bars32 32).max_drawdown :=
  c2_drawdown_monotone sim0 predict0 bars32 (by norm_num [sim0]) 10 32 (by omega)

theorem run_backtest_bars31_eq : run_backtest sim0 predict0 bars31 = c1_final := by
  unfold run_backtest
  rw [runLoop_bars31_eq]
  have hlast : bars31.getLast? = some (flatBar 30) := by
    have h : bars31 = (List.range 30).map flatBar ++ [flatBar 30] := by
      unfold bars31
      rw [List.range_succ, List.map_append]
      rfl
    rw [h, List.getLast?_concat]
  rw [finalize_spec state31 bars31 (flatBar 30) hlast]
  rfl

/-- Claim C1 (amended): at the end of a run every order still open is run
through the same per-order `_close_order` at the final bar's close price
and timestamp and appended to `closed_orders`, and `open_orders` is
cleared — but none of the accounting of a normal exit happens: balance,
margin_used, max_balance and max_drawdown are left exactly as the loop
left them, so margin is not released and the force-closed P&L is not
realized into the balance (see the counterexample). -/
theorem c1_finalize_no_accounting (sim : TradingSimulator)
    (predict : ℕ → Except Unit Prediction) (prices : List Bar)
    (h : prices ≠ []) :
    ∃ lastBar, prices.getLast? = some lastBar ∧
      (run_backtest sim predict prices).open_orders = [] ∧
      (run_backtest sim predict prices).closed_orders =
        (runLoop sim predict prices).closed_orders ++
          (runLoop sim predict prices).open_orders.map
            (fun o => close_order o lastBar.close lastBar.timestamp) ∧
      (run_backtest sim predict prices).balance =
        (runLoop sim predict prices).balance ∧
      (run_backtest sim predict prices).margin_used =
        (runLoop sim predict prices).margin_used ∧
      (run_backtest sim predict prices).max_balance =
        (runLoop sim predict prices).max_balance ∧
      (run_backtest sim predict prices).max_drawdown =
        (runLoop sim predict prices).max_drawdown := by
  obtain ⟨lastBar, hl⟩ := Option.isSome_iff_exists.mp (List.getLast?_isSome.mpr h)
  refine ⟨lastBar, hl, ?_⟩
  unfold run_backtest
  rw [finalize_spec _ prices lastBar hl]
  exact ⟨rfl, rfl, rfl, rfl, rfl, rfl⟩

/-- Counterexample to C1 as stated: on `bars31` one order is still open at
the end of the run; after finalization it has been moved to
`closed_orders` with a realized `profit_loss` of −0.2, yet `margin_used`
is still 10 (not 0) and `balance` is still the initial 10000, not
reflecting the force-closed P&L. -/
theorem c1_counterexample :
    (runLoop sim0 predict0 bars31).open_orders ≠ [] ∧
    (run_backtest sim0 predict0 bars31).margin_used = 10 ∧
    (run_backtest sim0 predict0 bars31).balance = sim0.initial_balance ∧
    ((run_backtest sim0 predict0 bars31).closed_orders.map
      (fun o => o.profit_loss)).sum = -0.2 := by
  rw [runLoop_bars31_eq, run_backtest_bars31_eq]
  refine ⟨by with_unfolding_all decide, rfl, rfl, by with_unfolding_all decide⟩

/-- Witness for C1 on the 31-bar run. -/
theorem c1_witness :
    ∃ lastBar, bars31.getLast? = some lastBar ∧
      (run_backtest sim0 predict0 bars31).open_orders = [] ∧
      (run_backtest sim0 predict0 bars31).closed_orders =
        (runLoop sim0 predict0 bars31).closed_orders ++
          (runLoop sim0 predict0 bars31).open_orders.map
            (fun o => close_order o lastBar.close lastBar.timestamp) ∧
      (run_backtest sim0 predict0 bars31).balance =
        (runLoop sim0 predict0 bars31).balance ∧
      (run_backtest sim0 predict0 bars31).margin_used =
        (runLoop sim0 predict0 bars31).margin_used ∧
      (run_backtest sim0 predict0 bars31).max_balance =
        (runLoop sim0 predict0 bars31).max_balance ∧
      (run_backtest sim0 predict0 bars31).max_drawdown =
        (runLoop sim0 predict0 bars31).max_drawdown :=
  c1_finalize_no_accounting sim0 predict0 bars31 (by decide)

end Forex
